import Mathlib

/-!
# Verification of the Orion language implementation

Shallow embedding of the Orion compiler pipeline
(`src/orion_compiler/`: `orion_types.py`, `ast_nodes.py`, `parser.py`,
`compiler.py`, `bytecode.py`, `objects.py`, `vm.py`) in Lean 4,
together with theorems settling the specification claims.

Conventions used throughout:
* Python strings are `String`, Python ints are `Int`; Python floats appear
  only as results of `/` and are modelled as exact rationals (`ℚ`) — no
  claim exercises float rounding.
* Python `dict`s that the claims exercise are association lists preserving
  insertion order; lookup/update use Python's `==` on the key subset
  actually used (strings, numbers, booleans, `None`).
* Mutable state is passed explicitly: each Python method that mutates
  `self` becomes a function from the state to the updated state.
-/

namespace Orion

/-! ## Types (`orion_types.py`)

The closed type set: `PrimitiveType(name)`, `ListType(element)`,
`DictType(key, value)`, `ComponentType(name)`.  Python dataclass equality
(same class and same fields) coincides with constructor equality here.
`ClassType` is referenced by `compiler.py` but is not defined in
`orion_types.py`; no claim depends on it and it is omitted. -/

inductive OType where
  | prim (name : String)
  | listT (elementType : OType)
  | dictT (keyType valueType : OType)
  | compT (name : String)
deriving DecidableEq, Repr

def ANY : OType := .prim "any"
def NIL_T : OType := .prim "nil"
def BOOL_T : OType := .prim "bool"
def NUMBER : OType := .prim "number"
def STRING : OType := .prim "string"
def FUNCTION : OType := .prim "function"
def TYPE_T : OType := .prim "type"
def COMPONENT : OType := .prim "component"
def MODULE : OType := .prim "module"
def ANY_LIST : OType := .listT ANY
def ANY_DICT : OType := .dictT ANY ANY

/-- Embeds `TypeAnalyzer._is_assignable` (compiler.py lines 186–192):
equal types pass, `ANY` passes in either position, `List`/`Dict` recurse on
their parameters, and a `dict[any, any]` value is a wildcard. -/
def isAssignable (target value : OType) : Bool :=
  if target = value ∨ target = ANY ∨ value = ANY then true
  else
    match target, value with
    | .listT te, .listT ve => isAssignable te ve
    | .dictT tk tv, .dictT vk vv =>
        if vk = ANY ∧ vv = ANY then true
        else isAssignable tk vk && isAssignable tv vv
    | _, _ => false

/-! ## AST (`ast_nodes.py`)

The statement/expression forms exercised by the claims.  Tokens are
replaced by their payload: a name token by its lexeme (`String`), an
operator token by its token type, a literal token by its literal value.
`Get`/`Set`/`This` and the component/class/module statement nodes are not
needed by any claim program and are omitted; parameter and return type
annotations of `Function` are dropped because neither the analyzer nor the
compiler reads them (parameters are typed `ANY`, return types ignored).
`GREATER_EQUAL`/`LESS_EQUAL` are omitted from `BinOp`: `Compiler.op_map`
has no entry for them (executing them would raise `KeyError`) and no claim
uses them. -/

inductive Lit where
  | num (n : Int)
  | str (s : String)
  | boolean (b : Bool)
  | nil
deriving DecidableEq, Repr

/-- Binary operator token types, the domain of `Compiler.op_map`. -/
inductive BinOp where
  | plus | minus | star | slash | equalEqual | greater | less
deriving DecidableEq, Repr

inductive UnOp where
  | minus | bang
deriving DecidableEq, Repr

inductive LogOp where
  | orOp | andOp
deriving DecidableEq, Repr

inductive Expr where
  | lit (value : Lit)
  | grouping (expression : Expr)
  | unary (op : UnOp) (right : Expr)
  | binary (left : Expr) (op : BinOp) (right : Expr)
  | varE (name : String)
  | assign (name : String) (value : Expr)
  | logical (left : Expr) (op : LogOp) (right : Expr)
  | call (callee : Expr) (arguments : List Expr)
  | listLit (elements : List Expr)
  | dictLit (keys : List Expr) (values : List Expr)
  | getSub (object : Expr) (index : Expr)
  | setSub (object : Expr) (index : Expr) (value : Expr)
  | genericType (baseType : Expr) (typeParams : List Expr)
deriving Repr

inductive Stmt where
  | expression (e : Expr)
  | varS (name : String) (tyAnn : Option Expr) (initV : Option Expr) (isConst : Bool)
  | block (statements : List Stmt)
  | ifS (condition : Expr) (thenBranch : Stmt) (elseBranch : Option Stmt)
  | whileS (condition : Expr) (body : Stmt)
  | fnStmt (name : String) (params : List String) (body : List Stmt)
  | ret (value : Option Expr)
deriving Repr

/-! ## Association-list helpers

Python `dict`s keyed by strings (analyzer `globals`/`type_map`, VM
`globals`) are modelled as insertion-ordered association lists; assignment
replaces the first entry with the key, else appends. -/

def alGet (l : List (String × α)) (k : String) : Option α :=
  (l.find? (fun p => p.1 == k)).map (·.2)

def alSet (l : List (String × α)) (k : String) (v : α) : List (String × α) :=
  match l with
  | [] => [(k, v)]
  | (k', v') :: rest =>
      if k' == k then (k', v) :: rest else (k', v') :: alSet rest k v

/-! ## Type analyzer (`compiler.py`, class `TypeAnalyzer`)

Single forward pass; `self` is the state threaded through every visitor.
`type_error(...)` prints a diagnostic; only the sticky `had_error` flag is
observable downstream, so the state records the flag and not the text. -/

structure ALocal where
  name : String
  depth : Nat
  ty : OType
deriving DecidableEq, Repr

structure AState where
  locals : List ALocal
  globals : List (String × OType)
  scopeDepth : Nat
  hadError : Bool
  typeMap : List (String × OType)
deriving Repr

/-- Embeds `TypeAnalyzer.__init__` (native-module specs empty, as in a fresh
`TypeAnalyzer()`): the prepopulated `globals` and `type_map`. -/
def AState.init : AState :=
  { locals := []
    globals := [("clock", FUNCTION), ("print", FUNCTION), ("slice", FUNCTION),
                ("lexer", MODULE), ("draw", MODULE), ("fs", MODULE)]
    scopeDepth := 0
    hadError := false
    typeMap := [("any", ANY), ("nil", NIL_T), ("bool", BOOL_T), ("number", NUMBER),
                ("string", STRING), ("function", FUNCTION), ("component", COMPONENT),
                ("module", MODULE), ("list", ANY_LIST), ("dict", ANY_DICT)] }

def AState.err (st : AState) : AState := { st with hadError := true }

def beginScope (st : AState) : AState := { st with scopeDepth := st.scopeDepth + 1 }

/-- Embeds `_end_scope`: decrement the depth, then pop trailing locals declared
deeper than the new depth. -/
def AState.endScope (st : AState) : AState :=
  let d := st.scopeDepth - 1
  { st with scopeDepth := d
            locals := ((st.locals.reverse).dropWhile (fun l => d < l.depth)).reverse }

def AState.addLocal (st : AState) (name : String) (ty : OType) : AState :=
  { st with locals := st.locals ++ [⟨name, st.scopeDepth, ty⟩] }

/-- Embeds `_get_var_type`: innermost local first, then globals; undeclared names
are an error and analyze as `ANY`. -/
def getVarType (st : AState) (name : String) : AState × OType :=
  match (st.locals.reverse).find? (fun l => l.name == name) with
  | some l => (st, l.ty)
  | none =>
      match alGet st.globals name with
      | some t => (st, t)
      | none => (st.err, ANY)

/-! The Python visitors recurse structurally on the AST.  Lean 4.14 does
not accept structural recursion through the nested `List` fields, and a
well-founded translation would not reduce inside the kernel, so each
recursive traversal below carries an explicit depth budget (`fuel`),
decremented on every call; on every input whose recursion depth the
budget covers — every theorem in this file instantiates it amply — the
function agrees with the source. -/

mutual

/-- Embeds `_resolve_type_expr` on a present annotation.  A `GenericType` whose
base is not a `Variable` node would raise `AttributeError` in Python; the
parser never produces one, and the embedding resolves that dead branch to
`ANY`. -/
def resolveTypeExprCore : Nat → AState → Expr → AState × OType
  | 0, st, _ => (st, ANY)
  | _ + 1, st, .varE name => (st, (alGet st.typeMap name).getD ANY)
  | fuel + 1, st, .genericType (.varE baseName) params =>
      let (st, tys) := resolveTypeExprList fuel st params
      if baseName == "list" then
        match tys with
        | [e] => (st, .listT e)
        | _ => (st.err, ANY_LIST)
      else if baseName == "dict" then
        match tys with
        | [k, v] => (st, .dictT k v)
        | _ => (st.err, ANY_DICT)
      else (st.err, ANY)
  | _ + 1, st, _ => (st, ANY)

def resolveTypeExprList : Nat → AState → List Expr → AState × List OType
  | 0, st, _ => (st, [])
  | _ + 1, st, [] => (st, [])
  | fuel + 1, st, p :: rest =>
      let (st, t) := resolveTypeExprCore fuel st p
      let (st, ts) := resolveTypeExprList fuel st rest
      (st, t :: ts)

end

/-- Embeds `_resolve_type_expr`: a missing annotation resolves to `ANY`. -/
def resolveTypeExpr (fuel : Nat) (st : AState) : Option Expr → AState × OType
  | none => (st, ANY)
  | some e => resolveTypeExprCore fuel st e

mutual

def analyzeExpr : Nat → AState → Expr → AState × OType
  | 0, st, _ => (st, ANY)
  | fuel + 1, st, e =>
    match e with
    | .lit v =>
        match v with
        | .boolean _ => (st, BOOL_T)
        | .num _ => (st, NUMBER)
        | .str _ => (st, STRING)
        | .nil => (st, NIL_T)
    | .grouping e => analyzeExpr fuel st e
    | .varE name => getVarType st name
    | .genericType _ _ => (st, ANY)
    | .assign name value =>
        let (st, valueType) := analyzeExpr fuel st value
        let (st, varType) := getVarType st name
        let st := if isAssignable varType valueType then st else st.err
        (st, valueType)
    | .binary left op right =>
        let (st, lt) := analyzeExpr fuel st left
        let (st, rt) := analyzeExpr fuel st right
        match op with
        | .minus | .star | .slash | .greater | .less =>
            let st := if lt ≠ ANY ∧ rt ≠ ANY ∧ (lt ≠ NUMBER ∨ rt ≠ NUMBER)
                      then st.err else st
            (st, if op = .greater ∨ op = .less then BOOL_T else NUMBER)
        | .plus =>
            if lt = NUMBER ∧ rt = NUMBER then (st, NUMBER)
            else if lt = STRING ∧ rt = STRING then (st, STRING)
            else if lt = ANY ∨ rt = ANY then (st, ANY)
            else (st.err, ANY)
        | .equalEqual => (st, BOOL_T)
    | .unary op right =>
        let (st, rt) := analyzeExpr fuel st right
        match op with
        | .minus => (if rt ≠ ANY ∧ rt ≠ NUMBER then st.err else st, NUMBER)
        | .bang => (if rt ≠ ANY ∧ rt ≠ BOOL_T then st.err else st, BOOL_T)
    | .logical _ _ _ => (st, BOOL_T)
    | .call callee _ =>
        -- `visit_call_expr` analyzes only the callee, never the arguments.
        let (st, calleeType) := analyzeExpr fuel st callee
        if calleeType = TYPE_T then
          match callee with
          | .varE n =>
              match alGet st.typeMap n with
              | some (.compT m) => (st, .compT m)
              | _ => (st, ANY)
          | _ => (st, ANY)
        else (st, ANY)
    | .listLit elements =>
        match elements with
        | [] => (st, .listT ANY)
        | _ =>
            let (st, tys) := analyzeExprs fuel st elements
            match tys with
            | [] => (st, .listT ANY)
            | firstType :: _ =>
                if tys.all (fun t => isAssignable firstType t)
                then (st, .listT firstType) else (st, .listT ANY)
    | .dictLit keys values =>
        match keys with
        | [] => (st, .dictT ANY ANY)
        | _ =>
            let (st, keyTypes) := analyzeExprs fuel st keys
            let (st, valueTypes) := analyzeExprs fuel st values
            let st := if keyTypes.any (fun t => ¬(t = ANY ∨ t = STRING))
                      then st.err else st
            match valueTypes with
            | [] => (st, .dictT STRING ANY)
            | firstValueType :: _ =>
                if valueTypes.all (fun t => isAssignable firstValueType t)
                then (st, .dictT STRING firstValueType)
                else (st, .dictT STRING ANY)
    | .getSub object index =>
        let (st, objectType) := analyzeExpr fuel st object
        let (st, indexType) := analyzeExpr fuel st index
        match objectType with
        | .listT e =>
            (if isAssignable NUMBER indexType then st else st.err, e)
        | .dictT k v =>
            (if isAssignable k indexType then st else st.err, v)
        | _ => (if objectType = ANY then st else st.err, ANY)
    | .setSub object index value =>
        let (st, objectType) := analyzeExpr fuel st object
        let (st, indexType) := analyzeExpr fuel st index
        let (st, valueType) := analyzeExpr fuel st value
        match objectType with
        | .listT e =>
            let st := if isAssignable NUMBER indexType then st else st.err
            let st := if isAssignable e valueType then st else st.err
            (st, valueType)
        | .dictT k v =>
            let st := if isAssignable k indexType then st else st.err
            let st := if isAssignable v valueType then st else st.err
            (st, valueType)
        | _ => (if objectType = ANY then st else st.err, valueType)

def analyzeExprs : Nat → AState → List Expr → AState × List OType
  | 0, st, _ => (st, [])
  | _ + 1, st, [] => (st, [])
  | fuel + 1, st, e :: rest =>
      let (st, t) := analyzeExpr fuel st e
      let (st, ts) := analyzeExprs fuel st rest
      (st, t :: ts)

def analyzeStmt : Nat → AState → Stmt → AState
  | 0, st, _ => st
  | fuel + 1, st, s =>
    match s with
    | .expression e => (analyzeExpr fuel st e).1
    | .varS name tyAnn initV _ =>
        let (st, declared) := resolveTypeExpr fuel st tyAnn
        match initV with
        | some i =>
            let (st, initType) := analyzeExpr fuel st i
            let declared := if declared = ANY then initType else declared
            let st := if isAssignable declared initType then st else st.err
            if st.scopeDepth > 0 then st.addLocal name declared
            else { st with globals := alSet st.globals name declared }
        | none =>
            if st.scopeDepth > 0 then st.addLocal name declared
            else { st with globals := alSet st.globals name declared }
    | .block stmts => (analyzeStmts fuel (beginScope st) stmts).endScope
    | .ifS condition thenBranch elseBranch =>
        let (st, ct) := analyzeExpr fuel st condition
        let st := if ct ≠ ANY ∧ ct ≠ BOOL_T then st.err else st
        let st := analyzeStmt fuel st thenBranch
        match elseBranch with
        | some e => analyzeStmt fuel st e
        | none => st
    | .whileS condition body =>
        let (st, ct) := analyzeExpr fuel st condition
        let st := if ct ≠ ANY ∧ ct ≠ BOOL_T then st.err else st
        analyzeStmt fuel st body
    | .fnStmt name params body =>
        let st := if st.scopeDepth > 0 then st.addLocal name FUNCTION
                  else { st with globals := alSet st.globals name FUNCTION }
        let st := beginScope st
        let st := params.foldl (fun s p => s.addLocal p ANY) st
        let st := analyzeStmts fuel st body
        st.endScope
    | .ret value =>
        match value with
        | some v => (analyzeExpr fuel st v).1
        | none => st

def analyzeStmts : Nat → AState → List Stmt → AState
  | 0, st, _ => st
  | _ + 1, st, [] => st
  | fuel + 1, st, s :: rest => analyzeStmts fuel (analyzeStmt fuel st s) rest

end

/-- Embeds `TypeAnalyzer.analyze` over a statement list from a given state. -/
def analyze (fuel : Nat) (st : AState) (statements : List Stmt) : AState :=
  analyzeStmts fuel st statements

/-! ## Runtime values (`objects.py`)

Tagged runtime objects.  A compiled function's `Chunk` is flattened into
the `fn` constructor (`code`, `consts`; the line table is never read by
the VM).  `StateProxy` keeps its wrapped `pairs`; its `owner`
back-reference (a cycle in the Python heap) is flattened out, and the
owner's `dirty` flag is threaded explicitly where `StateProxy.set` is
modelled (`stateProxySet`).  Python numbers are split into `num` (int)
and `fnum` (float, modelled as an exact rational; produced only by `/`,
which no claim exercises).  Instance field tables and dict pairs are
insertion-ordered association lists with Python `==` on keys. -/

inductive Value where
  | nil
  | boolV (b : Bool)
  | num (n : Int)
  | fnum (q : ℚ)
  | str (s : String)
  | list (elements : List Value)
  | dict (pairs : List (Value × Value))
  | native (arity : Option Nat) (fid : Nat)
  | fn (arity : Nat) (code : List Nat) (consts : List Value) (name : String)
  | cls (name : String) (methods : List (String × Value))
  | classInst (clsName : String) (clsMethods : List (String × Value))
      (fields : List (Value × Value))
  | compDef (name : String) (props : List (String × List Value))
      (methods : List (String × Value))
  | compInst (defName : String) (defMethods : List (String × Value))
      (fields : List (Value × Value)) (dirty : Bool)
  | bound (receiver : Value) (method : Value)
  | inst (fields : List (Value × Value))
  | proxy (pairs : List (Value × Value))

/-- Python `type(v).__name__`, as used in VM error messages. -/
def valueTypeName : Value → String
  | .nil => "NoneType"
  | .boolV _ => "bool"
  | .num _ => "int"
  | .fnum _ => "float"
  | .str _ => "str"
  | .list _ => "OrionList"
  | .dict _ => "OrionDict"
  | .native _ _ => "OrionNativeFunction"
  | .fn _ _ _ _ => "OrionCompiledFunction"
  | .cls _ _ => "OrionClass"
  | .classInst _ _ _ => "OrionClassInstance"
  | .compDef _ _ _ => "OrionComponentDef"
  | .compInst _ _ _ _ => "OrionComponentInstance"
  | .bound _ _ => "OrionBoundMethod"
  | .inst _ => "OrionInstance"
  | .proxy _ => "StateProxy"

/-- Numeric view of a value under Python coercion (`bool` counts as
`0`/`1`, ints and floats compare/combine numerically). -/
def asNumQ : Value → Option ℚ
  | .num n => some (n : ℚ)
  | .fnum q => some q
  | .boolV b => some (if b then 1 else 0)
  | _ => none

/-- Integer view (`int` or `bool`); used where Python `int` arithmetic
stays `int`. -/
def asInt : Value → Option Int
  | .num n => some n
  | .boolV b => some (if b then 1 else 0)
  | _ => none

/-- Python `==` on the value subset the claims exercise: numbers and
booleans compare numerically, strings and `None` structurally.  Python
compares the remaining object kinds (lists, dicts, functions, instances)
by identity; identity is not representable in this heapless embedding and
those comparisons — exercised by no claim — evaluate to `false`. -/
def pyEq (a b : Value) : Bool :=
  match asInt a, asInt b with
  | some x, some y => x == y
  | _, _ =>
      match asNumQ a, asNumQ b with
      | some x, some y => x == y
      | _, _ =>
          match a, b with
          | .str s, .str t => s == t
          | .nil, .nil => true
          | _, _ => false

/-- Embeds `dict.get` / `in`-test over association-list pairs, with Python `==`
on keys. -/
def pyDictGet (pairs : List (Value × Value)) (k : Value) : Option Value :=
  (pairs.find? (fun p => pyEq p.1 k)).map (·.2)

/-- Embeds `d[k] = v`: replace the first matching key in place, else append. -/
def pyDictSet (pairs : List (Value × Value)) (k v : Value) : List (Value × Value) :=
  match pairs with
  | [] => [(k, v)]
  | (k', v') :: rest =>
      if pyEq k' k then (k', v) :: rest else (k', v') :: pyDictSet rest k v

/-- Embeds `StateProxy.set` (objects.py lines 123–127): `super().set` stores the
value in the wrapped state map, then `self.owner.dirty = True`.  The
owner back-reference is flattened: the function takes and returns the
proxy's pairs together with the owning instance's dirty flag. -/
def stateProxySet (pairs : List (Value × Value)) (ownerDirty : Bool)
    (name : String) (value : Value) : List (Value × Value) × Bool :=
  let _ := ownerDirty
  (pyDictSet pairs (.str name) value, true)

/-! ## Virtual machine (`vm.py`)

`VM._run` is a fetch-decode-execute loop; one iteration of the `while`
loop becomes `step`, and `run` iterates it on fuel.  The operand stack is
a `List Value` with index 0 the bottom, exactly Python's list; the frame
stack keeps the current frame at the head (Python's `frames[-1]`).

`bytecode.py`'s `OpCode` enum defines members up to `OP_BUILD_DICT = 30`
and has **no** `OP_CLASS`, `OP_METHOD` or `OP_IMPORT_NATIVE`, yet
`vm.py`'s dispatch chain tests `instruction == OpCode.OP_CLASS` (line
398) before the `OP_IMPORT_NATIVE`/`OP_BUILD_LIST`/`OP_GET_SUBSCRIPT`/
`OP_SET_SUBSCRIPT`/`OP_BUILD_DICT` handlers.  Any instruction byte not
matched by the elif tests above line 398 (`OP_USE = 24` and bytes 27–30)
therefore raises `AttributeError: OP_CLASS` when dispatch reaches that
line, and the handlers below it are unreachable dead code.  The
embedding's dispatch mirrors this: those bytes produce the
`attrError "OP_CLASS"` outcome. -/

def OP_CONSTANT : Nat := 0
def OP_NIL : Nat := 1
def OP_TRUE : Nat := 2
def OP_FALSE : Nat := 3
def OP_POP : Nat := 4
def OP_NEGATE : Nat := 5
def OP_NOT : Nat := 6
def OP_ADD : Nat := 7
def OP_SUBTRACT : Nat := 8
def OP_MULTIPLY : Nat := 9
def OP_DIVIDE : Nat := 10
def OP_EQUAL : Nat := 11
def OP_GREATER : Nat := 12
def OP_LESS : Nat := 13
def OP_DEFINE_GLOBAL : Nat := 14
def OP_GET_GLOBAL : Nat := 15
def OP_SET_GLOBAL : Nat := 16
def OP_GET_LOCAL : Nat := 17
def OP_SET_LOCAL : Nat := 18
def OP_JUMP_IF_FALSE : Nat := 19
def OP_JUMP : Nat := 20
def OP_LOOP : Nat := 21
def OP_CALL : Nat := 22
def OP_RETURN : Nat := 23
def OP_USE : Nat := 24
def OP_GET_PROPERTY : Nat := 25
def OP_SET_PROPERTY : Nat := 26
def OP_BUILD_LIST : Nat := 27
def OP_GET_SUBSCRIPT : Nat := 28
def OP_SET_SUBSCRIPT : Nat := 29
def OP_BUILD_DICT : Nat := 30

/-- Embeds `VM._is_falsey` (vm.py lines 552–553): exactly `None` and `False` are
falsey. -/
def isFalsey : Value → Bool
  | .nil => true
  | .boolV b => !b
  | _ => false

/-- Python unary `-` (`OP_NEGATE` pops and negates). -/
def pyNeg : Value → Option Value
  | .num n => some (.num (-n))
  | .fnum q => some (.fnum (-q))
  | .boolV b => some (.num (-(if b then 1 else 0)))
  | _ => none

def repeatStr : Nat → String → String
  | 0, _ => ""
  | n + 1, s => s ++ repeatStr n s

/-- Python `a + b`: int-like stays int, any float makes float, strings
concatenate; anything else raises `TypeError`. -/
def pyAdd (a b : Value) : Option Value :=
  match asInt a, asInt b with
  | some x, some y => some (.num (x + y))
  | _, _ =>
      match asNumQ a, asNumQ b with
      | some x, some y => some (.fnum (x + y))
      | _, _ =>
          match a, b with
          | .str s, .str t => some (.str (s ++ t))
          | _, _ => none

def pySub (a b : Value) : Option Value :=
  match asInt a, asInt b with
  | some x, some y => some (.num (x - y))
  | _, _ =>
      match asNumQ a, asNumQ b with
      | some x, some y => some (.fnum (x - y))
      | _, _ => none

/-- Python `a * b` (string repetition included; `OrionList` defines no
`__mul__`, so list repetition raises `TypeError`). -/
def pyMul (a b : Value) : Option Value :=
  match asInt a, asInt b with
  | some x, some y => some (.num (x * y))
  | _, _ =>
      match asNumQ a, asNumQ b with
      | some x, some y => some (.fnum (x * y))
      | _, _ =>
          match a, b with
          | .str s, .num n => some (.str (repeatStr n.toNat s))
          | .num n, .str s => some (.str (repeatStr n.toNat s))
          | _, _ => none

/-- Python `a / b`: true division, always float.  Division by zero raises
`ZeroDivisionError` (mapped to the generic Python-exception outcome); on
nonzero operands the float result is modelled as an exact rational. -/
def pyDiv (a b : Value) : Option Value :=
  match asNumQ a, asNumQ b with
  | some x, some y => if y == 0 then none else some (.fnum (x / y))
  | _, _ => none

def pyGt (a b : Value) : Option Bool :=
  match asInt a, asInt b with
  | some x, some y => some (decide (y < x))
  | _, _ =>
      match asNumQ a, asNumQ b with
      | some x, some y => some (decide (y < x))
      | _, _ =>
          match a, b with
          | .str s, .str t => some (decide (t < s))
          | _, _ => none

def pyLt (a b : Value) : Option Bool :=
  match asInt a, asInt b with
  | some x, some y => some (decide (x < y))
  | _, _ =>
      match asNumQ a, asNumQ b with
      | some x, some y => some (decide (x < y))
      | _, _ =>
          match a, b with
          | .str s, .str t => some (decide (s < t))
          | _, _ => none

/-- One VM call frame (`CallFrame`): the function reference is flattened
to its `code` and `consts`, plus instruction pointer and stack base. -/
structure Frame where
  code : List Nat
  consts : List Value
  ip : Nat
  slots : Nat

structure VMState where
  frames : List Frame
  stack : List Value
  globals : List (String × Value)

/-- Outcomes of a run.  `ok v` is Python's `(InterpretResult.OK, v)`;
`runtimeError msg` is `(InterpretResult.RUNTIME_ERROR, None)` together
with the message the VM printed; `attrError`/`pyError` are uncaught
Python exceptions escaping `_run`; `timeout` means the fuel ran out (the
Python loop would simply keep running). -/
inductive Outcome where
  | ok (value : Value)
  | runtimeError (msg : String)
  | attrError (attr : String)
  | pyError (msg : String)
  | timeout

inductive StepRes where
  | next (st : VMState)
  | done (o : Outcome)

/-- Embeds `self.peek(d)` = `self.stack[-1 - d]`; out of range raises
`IndexError`. -/
def pyPeek (s : List Value) (d : Nat) : Option Value :=
  if d < s.length then s.get? (s.length - 1 - d) else none

/-- Embeds `self.pop()`; empty stack raises `IndexError`. -/
def pyPop (s : List Value) : Option (List Value × Value) :=
  match s.getLast? with
  | some v => some (s.dropLast, v)
  | none => none

/-- Embeds `self.stack[-1 - d] = v`; out of range raises `IndexError`. -/
def pySetFromEnd (s : List Value) (d : Nat) (v : Value) : Option (List Value) :=
  if d < s.length then some (s.set (s.length - 1 - d) v) else none

inductive CallRes where
  | proceed (stack : List Value) (frames : List Frame)
  | fail (msg : String)
  | crash (msg : String)

/-- The component-construction default loop of `_call_value`: each
declared property gets its single-token literal as default, else nil
(`None`). -/
def componentDefaults (props : List (String × List Value)) : List (Value × Value) :=
  props.foldl
    (fun acc p =>
      let default := match p.2 with
        | [v] => v
        | _ => Value.nil
      pyDictSet acc (.str p.1) default)
    []

/-- Embeds `VM._call_value` (vm.py lines 477–550).  `natImpl` supplies the
native callbacks (`callee.func(*args)`); the claim programs never invoke
one.  `fail msg` is `print(msg); return False` (the caller then halts
with `RUNTIME_ERROR`); `crash` marks a Python exception on a state the
compiler never produces. -/
def callValue (natImpl : Nat → List Value → Value) (callee : Value)
    (argCount : Nat) (stack : List Value) (frames : List Frame) : CallRes :=
  match callee with
  | .native arityOpt fid =>
      -- arity check unless variadic; args sliced off with the callee; result pushed
      let go : CallRes :=
        let args := if argCount > 0 then stack.drop (stack.length - argCount) else []
        let stack := stack.take (stack.length - argCount - 1)
        .proceed (stack ++ [natImpl fid args]) frames
      match arityOpt with
      | some a =>
          if argCount ≠ a then
            .fail s!"RuntimeError: Expected {a} arguments but got {argCount}."
          else go
      | none => go
  | .fn arity code consts _ =>
      if argCount ≠ arity then
        .fail s!"RuntimeError: Expected {arity} arguments but got {argCount}."
      else
        .proceed stack (⟨code, consts, 0, stack.length - argCount - 1⟩ :: frames)
  | .cls name methods =>
      -- the new instance replaces the class on the stack before any check
      match pySetFromEnd stack argCount (.classInst name methods []) with
      | none => .crash "IndexError"
      | some stack =>
          match alGet methods "init" with
          | some (.fn initArity initCode initConsts _) =>
              if argCount ≠ initArity then
                .fail s!"RuntimeError: Expected {initArity} arguments for init but got {argCount}."
              else
                .proceed stack
                  (⟨initCode, initConsts, 0, stack.length - argCount - 1⟩ :: frames)
          | some _ => .crash "AttributeError"
          | none =>
              if argCount ≠ 0 then
                .fail s!"RuntimeError: Expected 0 arguments but got {argCount}."
              else .proceed stack frames
  | .compDef name props methods =>
      if argCount > 1 then
        .fail s!"RuntimeError: Component \x27{name}\x27 constructor takes 0 or 1 arguments, but got {argCount}."
      else
        let overlay? : Option (List (Value × Value) × List Value) :=
          if argCount == 1 then
            match pyPeek stack 0 with
            | some (.dict pairs) => some (pairs, stack.dropLast)
            | _ => none
          else some ([], stack)
        match overlay? with
        | none =>
            match pyPeek stack 0 with
            | some _ => .fail "RuntimeError: Component constructor argument must be a dictionary."
            | none => .crash "IndexError"
        | some (overlay, stack) =>
            match pyPop stack with
            | none => .crash "IndexError"
            | some (stack, _definition) =>
                let fields := componentDefaults props
                let fields := overlay.foldl (fun acc kv => pyDictSet acc kv.1 kv.2) fields
                let fields :=
                  match pyDictGet fields (.str "state") with
                  | some (.dict sd) => pyDictSet fields (.str "state") (.proxy sd)
                  | _ => fields
                .proceed (stack ++ [.compInst name methods fields true]) frames
  | .bound receiver method =>
      match method with
      | .fn methodArity methodCode methodConsts methodName =>
          if argCount ≠ methodArity then
            .fail s!"RuntimeError: Method \x27{methodName}\x27 expected {methodArity} arguments but got {argCount}."
          else
            match pySetFromEnd stack argCount receiver with
            | none => .crash "IndexError"
            | some stack =>
                .proceed stack
                  (⟨methodCode, methodConsts, 0, stack.length - argCount - 1⟩ :: frames)
      | _ => .crash "AttributeError"
  | other =>
      let tn := valueTypeName other
      .fail s!"RuntimeError: Can only call functions and components, not {tn}."

/-- One iteration of the `while True` loop of `VM._run`: fetch the byte at
the current frame's `ip`, convert it (`OpCode(byte)` raises `ValueError`
above 30), and dispatch along the elif chain in source order.  `ip` is
advanced exactly as the Python `read_byte`/`read_short` calls do before
the handler body runs.  Bytes 24 and 27–30 are valid enum members with no
elif test above vm.py line 398 and hit the `OpCode.OP_CLASS` comparison
there, raising `AttributeError`.  `OP_SET_PROPERTY` mutates a shared heap
object in Python; the embedding updates only the stack copy (then pops
it), which is observationally equal for the straight-line reads the
claims perform — no claim theorem executes `OP_SET_PROPERTY`.
`OP_LOOP` with an offset larger than `ip + 3` would make the Python `ip`
negative (indexing from the end of the code array); compiled loops never
do, and Nat subtraction truncates instead. -/
def step (natImpl : Nat → List Value → Value) (st : VMState) : StepRes :=
  match st.frames with
  | [] => .done (.pyError "IndexError")
  | frame :: restFrames =>
    match frame.code.get? frame.ip with
    | none => .done (.pyError "IndexError")
    | some b =>
      let next1 (stack : List Value) : StepRes :=
        .next { frames := { frame with ip := frame.ip + 1 } :: restFrames,
                stack, globals := st.globals }
      let next2 (stack : List Value) : StepRes :=
        .next { frames := { frame with ip := frame.ip + 2 } :: restFrames,
                stack, globals := st.globals }
      -- `_binary_op`: pop b, pop a, push op(a, b); a Python exception in
      -- the operator is the `pyError` outcome
      let binOp (f : Value → Value → Option Value) : StepRes :=
        match pyPop st.stack with
        | none => .done (.pyError "IndexError")
        | some (stack, y) =>
            match pyPop stack with
            | none => .done (.pyError "IndexError")
            | some (stack, x) =>
                match f x y with
                | some r => next1 (stack ++ [r])
                | none => .done (.pyError "TypeError")
      let readConstStr (k : StepRes) (f : String → StepRes) : StepRes :=
        match frame.code.get? (frame.ip + 1) with
        | none => .done (.pyError "IndexError")
        | some idx =>
            match frame.consts.get? idx with
            | none => .done (.pyError "IndexError")
            | some (.str name) => f name
            | some _ => k
      if 30 < b then .done (.pyError "ValueError")
      else if b == OP_RETURN then
        match pyPop st.stack with
        | none => .done (.pyError "IndexError")
        | some (stack, result) =>
            match restFrames with
            | [] => .done (.ok result)
            | _ => .next { frames := restFrames,
                           stack := stack.take frame.slots ++ [result],
                           globals := st.globals }
      else if b == OP_CALL then
        match frame.code.get? (frame.ip + 1) with
        | none => .done (.pyError "IndexError")
        | some argCount =>
            match pyPeek st.stack argCount with
            | none => .done (.pyError "IndexError")
            | some callee =>
                let frames := { frame with ip := frame.ip + 2 } :: restFrames
                match callValue natImpl callee argCount st.stack frames with
                | .proceed stack frames => .next { frames, stack, globals := st.globals }
                | .fail msg => .done (.runtimeError msg)
                | .crash msg => .done (.pyError msg)
      else if b == OP_CONSTANT then
        match frame.code.get? (frame.ip + 1) with
        | none => .done (.pyError "IndexError")
        | some idx =>
            match frame.consts.get? idx with
            | none => .done (.pyError "IndexError")
            | some v => next2 (st.stack ++ [v])
      else if b == OP_NEGATE then
        match pyPop st.stack with
        | none => .done (.pyError "IndexError")
        | some (stack, v) =>
            match pyNeg v with
            | some r => next1 (stack ++ [r])
            | none => .done (.pyError "TypeError")
      else if b == OP_ADD then binOp pyAdd
      else if b == OP_SUBTRACT then binOp pySub
      else if b == OP_MULTIPLY then binOp pyMul
      else if b == OP_DIVIDE then binOp pyDiv
      else if b == OP_EQUAL then binOp (fun x y => some (.boolV (pyEq x y)))
      else if b == OP_GREATER then binOp (fun x y => (pyGt x y).map (.boolV ·))
      else if b == OP_LESS then binOp (fun x y => (pyLt x y).map (.boolV ·))
      else if b == OP_NOT then
        match pyPop st.stack with
        | none => .done (.pyError "IndexError")
        | some (stack, v) => next1 (stack ++ [.boolV (!isFalsey v)])
      else if b == OP_TRUE then next1 (st.stack ++ [.boolV true])
      else if b == OP_FALSE then next1 (st.stack ++ [.boolV false])
      else if b == OP_NIL then next1 (st.stack ++ [.nil])
      else if b == OP_POP then
        match pyPop st.stack with
        | none => .done (.pyError "IndexError")
        | some (stack, _) => next1 stack
      else if b == OP_DEFINE_GLOBAL then
        -- the compiler only ever interns string names for globals
        readConstStr (.done (.pyError "TypeError")) fun name =>
          match pyPeek st.stack 0 with
          | none => .done (.pyError "IndexError")
          | some v =>
              .next { frames := { frame with ip := frame.ip + 2 } :: restFrames,
                      stack := st.stack.dropLast,
                      globals := alSet st.globals name v }
      else if b == OP_GET_GLOBAL then
        readConstStr (.done (.pyError "TypeError")) fun name =>
          match alGet st.globals name with
          | none => .done (.runtimeError s!"RuntimeError: Undefined variable \x27{name}\x27.")
          | some v => next2 (st.stack ++ [v])
      else if b == OP_SET_GLOBAL then
        readConstStr (.done (.pyError "TypeError")) fun name =>
          match alGet st.globals name with
          | none => .done (.runtimeError s!"RuntimeError: Undefined variable \x27{name}\x27.")
          | some _ =>
              match pyPeek st.stack 0 with
              | none => .done (.pyError "IndexError")
              | some v =>
                  .next { frames := { frame with ip := frame.ip + 2 } :: restFrames,
                          stack := st.stack,
                          globals := alSet st.globals name v }
      else if b == OP_GET_LOCAL then
        match frame.code.get? (frame.ip + 1) with
        | none => .done (.pyError "IndexError")
        | some slot =>
            match st.stack.get? (frame.slots + slot) with
            | none => .done (.pyError "IndexError")
            | some v => next2 (st.stack ++ [v])
      else if b == OP_SET_LOCAL then
        match frame.code.get? (frame.ip + 1) with
        | none => .done (.pyError "IndexError")
        | some slot =>
            match pyPeek st.stack 0 with
            | none => .done (.pyError "IndexError")
            | some v =>
                if frame.slots + slot < st.stack.length then
                  next2 (st.stack.set (frame.slots + slot) v)
                else .done (.pyError "IndexError")
      else if b == OP_JUMP then
        match frame.code.get? (frame.ip + 1), frame.code.get? (frame.ip + 2) with
        | some hi, some lo =>
            .next { frames := { frame with ip := frame.ip + 3 + ((hi <<< 8) ||| lo) } :: restFrames,
                    stack := st.stack, globals := st.globals }
        | _, _ => .done (.pyError "IndexError")
      else if b == OP_JUMP_IF_FALSE then
        match frame.code.get? (frame.ip + 1), frame.code.get? (frame.ip + 2) with
        | some hi, some lo =>
            match pyPeek st.stack 0 with
            | none => .done (.pyError "IndexError")
            | some v =>
                let off := if isFalsey v then (hi <<< 8) ||| lo else 0
                .next { frames := { frame with ip := frame.ip + 3 + off } :: restFrames,
                        stack := st.stack, globals := st.globals }
        | _, _ => .done (.pyError "IndexError")
      else if b == OP_LOOP then
        match frame.code.get? (frame.ip + 1), frame.code.get? (frame.ip + 2) with
        | some hi, some lo =>
            .next { frames := { frame with ip := frame.ip + 3 - ((hi <<< 8) ||| lo) } :: restFrames,
                    stack := st.stack, globals := st.globals }
        | _, _ => .done (.pyError "IndexError")
      else if b == OP_GET_PROPERTY then
        match pyPeek st.stack 0 with
        | none => .done (.pyError "IndexError")
        | some instance_ =>
            readConstStr (.done (.pyError "TypeError")) fun name =>
              match instance_ with
              | .classInst cn methods fields =>
                  match pyDictGet fields (.str name) with
                  | some v => next2 (st.stack.dropLast ++ [v])
                  | none =>
                      match alGet methods name with
                      | some m => next2 (st.stack.dropLast ++ [.bound instance_ m])
                      | none => .done (.runtimeError
                          s!"RuntimeError: Undefined property \x27{name}\x27 on \x27{cn}\x27.")
              | .compInst dn methods fields _ =>
                  match pyDictGet fields (.str name) with
                  | some v => next2 (st.stack.dropLast ++ [v])
                  | none =>
                      match alGet methods name with
                      | some m => next2 (st.stack.dropLast ++ [.bound instance_ m])
                      | none => .done (.runtimeError
                          s!"RuntimeError: Undefined property \x27{name}\x27 on component \x27{dn}\x27.")
              | .list elements =>
                  if name == "length" then
                    next2 (st.stack.dropLast ++ [.num elements.length])
                  else .done (.runtimeError
                      s!"RuntimeError: Type \x27list\x27 has no property \x27{name}\x27.")
              -- plain instances and state proxies use the lenient
              -- `OrionInstance.get`: nil for unknown fields
              | .inst fields =>
                  next2 (st.stack.dropLast ++ [(pyDictGet fields (.str name)).getD .nil])
              | .proxy fields =>
                  next2 (st.stack.dropLast ++ [(pyDictGet fields (.str name)).getD .nil])
              | _ => .done (.runtimeError "RuntimeError: Only instances and lists have properties.")
      else if b == OP_SET_PROPERTY then
        match pyPeek st.stack 1 with
        | none => .done (.pyError "IndexError")
        | some instance_ =>
            match instance_ with
            | .list _ => .done (.runtimeError "RuntimeError: Cannot set properties on a list.")
            | .classInst _ _ _ | .compInst _ _ _ _ | .inst _ | .proxy _ =>
                readConstStr (.done (.pyError "TypeError")) fun _name =>
                  match pyPeek st.stack 0 with
                  | none => .done (.pyError "IndexError")
                  | some v => next2 (st.stack.take (st.stack.length - 2) ++ [v])
            | _ => .done (.runtimeError "RuntimeError: Only instances have properties.")
      else
        -- vm.py line 398: `elif instruction == OpCode.OP_CLASS` on an enum
        -- without that member — AttributeError for OP_USE and bytes 27–30
        .done (.attrError "OP_CLASS")

/-- Embeds `VM._run` as fuel-bounded iteration of `step`. -/
def run (natImpl : Nat → List Value → Value) : Nat → VMState → Outcome
  | 0, _ => .timeout
  | fuel + 1, st =>
      match step natImpl st with
      | .done o => o
      | .next st' => run natImpl fuel st'

/-- The `VM.__init__` globals the claim programs can see: `clock`,
`print`, `slice` and the `lexer` namespace object (native callbacks are
indexed 0–3 into the `natImpl` table; no claim program invokes one). -/
def vmGlobals0 : List (String × Value) :=
  [("clock", .native (some 0) 0), ("print", .native none 1),
   ("slice", .native none 2),
   ("lexer", .inst [(.str "tokenize", .native (some 1) 3)])]

def defaultNatImpl : Nat → List Value → Value := fun _ _ => .nil

/-- Embeds `VM.interpret`: stack seeded with the entry function, one frame at its
chunk's start with base 0. -/
def interpret (natImpl : Nat → List Value → Value) (fuel : Nat) : Value → Outcome
  | v@(.fn _ code consts _) =>
      run natImpl fuel
        { frames := [⟨code, consts, 0, 0⟩],
          stack := [v],
          globals := vmGlobals0 }
  | _ => .pyError "TypeError"

/-! ## Bytecode compiler (`compiler.py`, class `Compiler`; `bytecode.py`,
class `Chunk`)

One `Compiler` per function.  The `enclosing` link is structural only —
`_resolve_local` never consults it — and is omitted.  `Chunk.write`
appends to a Python `bytearray`, which rejects values ≥ 256 with
`ValueError`; the embedding appends unchecked, and the only theorem that
produces such a byte (`C6`) states facts established before the Python
append would raise. -/

structure Chunk where
  code : List Nat
  constants : List Value
  lines : List Nat

def Chunk.write (c : Chunk) (byte : Nat) (line : Nat) : Chunk :=
  { c with code := c.code ++ [byte], lines := c.lines ++ [line] }

/-- Embeds `Chunk.add_constant`: append, return the new index.  Constants are
never deduplicated. -/
def Chunk.addConstant (c : Chunk) (v : Value) : Chunk × Nat :=
  ({ c with constants := c.constants ++ [v] }, c.constants.length)

def litToValue : Lit → Value
  | .num n => .num n
  | .str s => .str s
  | .boolean b => .boolV b
  | .nil => .nil

structure CState where
  locals : List ALocal
  scopeDepth : Nat
  hadError : Bool
  ftype : String
  arity : Nat
  fname : String
  chunk : Chunk

/-- Embeds `_emit_byte`: the compiler always passes line 0 to `Chunk.write`. -/
def CState.emitByte (st : CState) (b : Nat) : CState :=
  { st with chunk := st.chunk.write b 0 }

def CState.emitBytes (st : CState) (b1 b2 : Nat) : CState :=
  (st.emitByte b1).emitByte b2

def CState.makeConstant (st : CState) (v : Value) : CState × Nat :=
  let (chunk, idx) := st.chunk.addConstant v
  ({ st with chunk }, idx)

/-- Embeds `_emit_constant` (compiler.py lines 386–389): the only emission path
that checks the 255 bound; on overflow it sets `had_error` and emits
nothing. -/
def CState.emitConstant (st : CState) (v : Value) : CState :=
  let (st, idx) := st.makeConstant v
  if 255 < idx then { st with hadError := true }
  else st.emitBytes OP_CONSTANT idx

def CState.cerr (st : CState) : CState := { st with hadError := true }

def CState.addLocal (st : CState) (name : String) (ty : OType) : CState :=
  { st with locals := st.locals ++ [⟨name, st.scopeDepth, ty⟩] }

/-- Embeds `_resolve_local`: scan the local list from the end, return the slot
index or none (Python's `-1`). -/
def CState.resolveLocal (st : CState) (name : String) : Option Nat :=
  match (st.locals.reverse).findIdx? (fun l => l.name == name) with
  | some revIdx => some (st.locals.length - 1 - revIdx)
  | none => none

def CState.beginScope (st : CState) : CState :=
  { st with scopeDepth := st.scopeDepth + 1 }

/-- Compiler `_end_scope`: one `OP_POP` per local declared deeper than the
new depth, popped in reverse order. -/
def CState.endScope (st : CState) : CState :=
  let d := st.scopeDepth - 1
  let popped := (st.locals.reverse).takeWhile (fun l => d < l.depth)
  let st := popped.foldl (fun s _ => s.emitByte OP_POP) st
  { st with scopeDepth := d
            locals := ((st.locals.reverse).dropWhile (fun l => d < l.depth)).reverse }

/-- Embeds `_emit_jump`: opcode plus a two-byte `0xffff` placeholder; returns the
placeholder's position. -/
def CState.emitJump (st : CState) (op : Nat) : CState × Nat :=
  let st := ((st.emitByte op).emitByte 0xff).emitByte 0xff
  (st, st.chunk.code.length - 2)

/-- Embeds `_emit_loop`: backward jump of `len(code) - loop_start + 2`; offsets
over 16 bits set `had_error` (and the bytes are still emitted, as in the
source). -/
def CState.emitLoop (st : CState) (loopStart : Nat) : CState :=
  let st := st.emitByte OP_LOOP
  let offset := st.chunk.code.length - loopStart + 2
  let st := if 0xffff < offset then st.cerr else st
  (st.emitByte ((offset >>> 8) &&& 0xff)).emitByte (offset &&& 0xff)

/-- Embeds `_patch_jump`: overwrite the placeholder with the distance from just
past it to the current end of code. -/
def CState.patchJump (st : CState) (offsetPos : Nat) : CState :=
  let jump := st.chunk.code.length - offsetPos - 2
  let st := if 0xffff < jump then st.cerr else st
  let code := (st.chunk.code.set offsetPos ((jump >>> 8) &&& 0xff)).set
      (offsetPos + 1) (jump &&& 0xff)
  { st with chunk := { st.chunk with code } }

/-- Embeds `_emit_return`: initializers return `this` (slot 0), everything else
nil. -/
def CState.emitReturn (st : CState) : CState :=
  let st := if st.ftype == "initializer" then st.emitBytes OP_GET_LOCAL 0
            else st.emitByte OP_NIL
  st.emitByte OP_RETURN

def binOpByte : BinOp → Nat
  | .plus => OP_ADD
  | .minus => OP_SUBTRACT
  | .star => OP_MULTIPLY
  | .slash => OP_DIVIDE
  | .equalEqual => OP_EQUAL
  | .greater => OP_GREATER
  | .less => OP_LESS

mutual

/-- The `Compiler` expression visitors.  `visit_logical_expr` is `pass`
(compiler.py line 477): the state is returned unchanged.
`visit_generic_type_expr` is likewise `pass`. -/
def compileExpr : Nat → CState → Expr → CState
  | 0, st, _ => st
  | fuel + 1, st, e =>
    match e with
    | .lit v => st.emitConstant (litToValue v)
    | .grouping e => compileExpr fuel st e
    | .unary op right =>
        let st := compileExpr fuel st right
        match op with
        | .minus => st.emitByte OP_NEGATE
        | .bang => st.emitByte OP_NOT
    | .binary left op right =>
        let st := compileExpr fuel st left
        let st := compileExpr fuel st right
        st.emitByte (binOpByte op)
    | .varE name =>
        match st.resolveLocal name with
        | some slot => st.emitBytes OP_GET_LOCAL slot
        | none =>
            let (st, idx) := st.makeConstant (.str name)
            st.emitBytes OP_GET_GLOBAL idx
    | .assign name value =>
        let st := compileExpr fuel st value
        match st.resolveLocal name with
        | some slot => st.emitBytes OP_SET_LOCAL slot
        | none =>
            let (st, idx) := st.makeConstant (.str name)
            st.emitBytes OP_SET_GLOBAL idx
    | .logical _ _ _ => st
    | .call callee arguments =>
        let st := compileExpr fuel st callee
        let st := compileExprs fuel st arguments
        st.emitBytes OP_CALL arguments.length
    | .listLit elements =>
        let st := compileExprs fuel st elements
        st.emitBytes OP_BUILD_LIST elements.length
    | .dictLit keys values =>
        let st := compilePairs fuel st keys values
        st.emitBytes OP_BUILD_DICT keys.length
    | .getSub object index =>
        let st := compileExpr fuel st object
        let st := compileExpr fuel st index
        st.emitByte OP_GET_SUBSCRIPT
    | .setSub object index value =>
        let st := compileExpr fuel st object
        let st := compileExpr fuel st index
        let st := compileExpr fuel st value
        st.emitByte OP_SET_SUBSCRIPT
    | .genericType _ _ => st

def compileExprs : Nat → CState → List Expr → CState
  | 0, st, _ => st
  | _ + 1, st, [] => st
  | fuel + 1, st, e :: rest => compileExprs fuel (compileExpr fuel st e) rest

/-- Embeds `visit_dict_literal_expr` iterates `range(len(keys))` indexing both
lists; the parser guarantees equal lengths. -/
def compilePairs : Nat → CState → List Expr → List Expr → CState
  | 0, st, _, _ => st
  | fuel + 1, st, k :: ks, v :: vs =>
      let st := compileExpr fuel st k
      let st := compileExpr fuel st v
      compilePairs fuel st ks vs
  | _ + 1, st, _, _ => st

def compileStmt : Nat → CState → Stmt → CState
  | 0, st, _ => st
  | fuel + 1, st, s =>
    match s with
    | .expression e => (compileExpr fuel st e).emitByte OP_POP
    | .varS name _ initV _ =>
        let st := compileExpr fuel st (initV.getD (.lit .nil))
        if st.scopeDepth > 0 then st.addLocal name ANY
        else
          let (st, idx) := st.makeConstant (.str name)
          st.emitBytes OP_DEFINE_GLOBAL idx
    | .block statements => (compileStmts fuel st.beginScope statements).endScope
    | .ifS condition thenBranch elseBranch =>
        let st := compileExpr fuel st condition
        let (st, thenJump) := st.emitJump OP_JUMP_IF_FALSE
        let st := st.emitByte OP_POP
        let st := compileStmt fuel st thenBranch
        let (st, elseJump) := st.emitJump OP_JUMP
        let st := st.patchJump thenJump
        let st := st.emitByte OP_POP
        let st := match elseBranch with
          | some e => compileStmt fuel st e
          | none => st
        st.patchJump elseJump
    | .whileS condition body =>
        let loopStart := st.chunk.code.length
        let st := compileExpr fuel st condition
        let (st, exitJump) := st.emitJump OP_JUMP_IF_FALSE
        let st := st.emitByte OP_POP
        let st := compileStmt fuel st body
        let st := st.emitLoop loopStart
        let st := st.patchJump exitJump
        st.emitByte OP_POP
    | .fnStmt name params body =>
        -- `visit_function_stmt`: compile a child Compiler; the child's
        -- `had_error` flag is read by no caller (only the top-level
        -- compiler's flag gates `_compile_module_source`)
        let (functionObj, _childHadError) := compileFunction fuel "function" name params body
        let st := st.emitConstant functionObj
        if st.scopeDepth > 0 then st.addLocal name FUNCTION
        else
          let (st, idx) := st.makeConstant (.str name)
          st.emitBytes OP_DEFINE_GLOBAL idx
    | .ret value =>
        if st.ftype == "initializer" then
          let st := if value.isSome then st.cerr else st
          st.emitReturn
        else
          match value with
          | some e => (compileExpr fuel st e).emitByte OP_RETURN
          | none => st.emitReturn

def compileStmts : Nat → CState → List Stmt → CState
  | 0, st, _ => st
  | _ + 1, st, [] => st
  | fuel + 1, st, s :: rest => compileStmts fuel (compileStmt fuel st s) rest

/-- Embeds `Compiler.__init__` followed by `_end_compiler`: slot 0 holds `this`
for methods and the (anonymous) function value otherwise; parameters
fill slots 1..N; a function named `init` compiles as an initializer.
Returns the compiled function object and the compiler's `had_error`. -/
def compileFunction : Nat → String → String → List String → List Stmt → Value × Bool
  | 0, _, _, _, _ => (.nil, false)
  | fuel + 1, declaredType, name, params, body =>
      let ftype := if name == "init" then "initializer" else declaredType
      let st : CState :=
        { locals := [], scopeDepth := 0, hadError := false, ftype,
          arity := params.length, fname := name, chunk := ⟨[], [], []⟩ }
      let st := if ftype == "method" then st.addLocal "this" ANY
                else st.addLocal "" FUNCTION
      let st := params.foldl (fun s p => s.addLocal p ANY) st
      let st := compileStmts fuel st body
      let st := st.emitReturn
      (.fn st.arity st.chunk.code st.chunk.constants st.fname, st.hadError)

end

/-- Embeds `_compile_module_source`: the whole module body compiled as a
zero-parameter `<script>` function. -/
def compileScript (fuel : Nat) (statements : List Stmt) : Value × Bool :=
  compileFunction fuel "script" "<script>" [] statements

/-! ## Parser: `for` desugaring (`parser.py`, `Parser._for_statement`,
lines 99–136)

`_for_statement` parses the initializer (`None`, a `var` declaration or an
expression statement), the optional condition, the optional increment and
the body by delegating to `_var_declaration`/`_expression`/`_statement`,
then desugars (lines 125–136).  The embedding is that desugaring step,
applied to the parsed components. -/

def forDesugar (initializer : Option Stmt) (condition : Option Expr)
    (increment : Option Expr) (body : Stmt) : Stmt :=
  let body := match increment with
    | some inc => Stmt.block [body, .expression inc]
    | none => body
  let condition := match condition with
    | none => Expr.lit (.boolean true)
    | some c => c
  let body := Stmt.whileS condition body
  match initializer with
  | some i => .block [i, body]
  | none => body

/-- Modelled from the spec's words, for comparison with `forDesugar`: the
desugared form the spec prescribes for a fully populated `for`, namely
`{ init; while (cond or true) { body; incr; } }` with the while-condition
the logical expression `cond or true`. -/
def specForDesugar (initializer : Stmt) (condition : Expr)
    (increment : Expr) (body : Stmt) : Stmt :=
  .block [initializer,
    .whileS (.logical condition .orOp (.lit (.boolean true)))
      (.block [body, .expression increment])]

/-! ## Claim inputs -/

/-- Program `var l: list[any] = [1]; var n: list[number] = l;` (spec §8; claim
C1). -/
def c1Prog : List Stmt :=
  [ .varS "l" (some (.genericType (.varE "list") [.varE "any"]))
        (some (.listLit [.lit (.num 1)])) false
  , .varS "n" (some (.genericType (.varE "list") [.varE "number"]))
        (some (.varE "l")) false ]

/-- Program `function fib(n) { if (n < 2) { return n; } return fib(n - 2) +
fib(n - 1); } return fib(8);` — the naive recursive Fibonacci program of
test_vm.py. -/
def fibProg : List Stmt :=
  [ .fnStmt "fib" ["n"]
      [ .ifS (.binary (.varE "n") .less (.lit (.num 2)))
            (.block [.ret (some (.varE "n"))]) none
      , .ret (some (.binary
          (.call (.varE "fib") [.binary (.varE "n") .minus (.lit (.num 2))])
          .plus
          (.call (.varE "fib") [.binary (.varE "n") .minus (.lit (.num 1))]))) ]
  , .ret (some (.call (.varE "fib") [.lit (.num 8)])) ]

/-- Program `return [1][10];` — the out-of-range list read of spec §8 and
test_vm.py. -/
def c4ListProg : List Stmt :=
  [ .ret (some (.getSub (.listLit [.lit (.num 1)]) (.lit (.num 10)))) ]

/-- Program `return {"a": 1}["b"];` — the missing-dict-key read (test_vm.py
"Dict Get Missing Key"). -/
def c4DictProg : List Stmt :=
  [ .ret (some (.getSub (.dictLit [.lit (.str "a")] [.lit (.num 1)])
      (.lit (.str "b")))) ]

/-- A compiler state whose constant pool already holds 256 entries, so the
next interned constant gets index 256 — the state a script reaches after,
for example, 256 distinct number-literal statements. -/
def c6St : CState :=
  { locals := [⟨"", 0, FUNCTION⟩], scopeDepth := 0, hadError := false,
    ftype := "script", arity := 0, fname := "<script>",
    chunk := ⟨[], List.replicate 256 (.num 0), []⟩ }

def fnCode : Value → List Nat
  | .fn _ code _ _ => code
  | _ => []

def fnConsts : Value → List Value
  | .fn _ _ consts _ => consts
  | _ => []

/-! ## Theorems -/

/-- Helper: popping from a stack with a known top. -/
theorem pyPop_concat (l : List Value) (x : Value) : pyPop (l ++ [x]) = some (l, x) := by
  simp [pyPop]

/-- Helper: peeking the top of a stack with a known top. -/
theorem pyPeek_zero_concat (l : List Value) (x : Value) :
    pyPeek (l ++ [x]) 0 = some x := by
  simp [pyPeek]

/-- Helper: peeking the top of a stack with two known topmost values. -/
theorem pyPeek_zero_pair (l : List Value) (x y : Value) :
    pyPeek (l ++ [x, y]) 0 = some y := by
  have h := pyPeek_zero_concat (l ++ [x]) y
  simpa using h

/-- Helper: Python `==` is reflexive on string keys. -/
theorem pyEq_str_refl (s : String) : pyEq (.str s) (.str s) = true := by
  simp [pyEq, asInt, asNumQ]

/-- Helper: a freshly written dict key reads back. -/
theorem pyDictGet_set_self (l : List (Value × Value)) (s : String) (v : Value) :
    pyDictGet (pyDictSet l (.str s) v) (.str s) = some v := by
  induction l with
  | nil => simp [pyDictSet, pyDictGet, List.find?, pyEq_str_refl]
  | cons hd tl ih =>
      simp only [pyDictSet]
      by_cases h : pyEq hd.1 (.str s) = true
      · simp [pyDictGet, List.find?, h]
      · simp only [h, if_neg, Bool.false_eq_true, not_false_iff, ite_false]
        simp [pyDictGet, List.find?, h] at ih ⊢
        exact ih

/-- C7.  For every type of the closed type set — parametric `list` and
`dict` types included — `is_assignable` accepts `Any` in both positions:
`is_assignable(Any, t)` and `is_assignable(t, Any)` are both true. -/
theorem c7_any_bidirectional (t : OType) :
    isAssignable ANY t = true ∧ isAssignable t ANY = true := by
  constructor <;> · unfold isAssignable; simp

/-- C9.  Compiling a `Logical` (`or`/`and`) expression emits nothing:
`Compiler.visit_logical_expr` is `pass`, so the compiler state — its
chunk's code included — is returned unchanged, and no bytecode that could
push the expression's value at runtime is ever produced. -/
theorem c9_logical_emits_nothing (fuel : Nat) (st : CState)
    (l r : Expr) (op : LogOp) :
    compileExpr (fuel + 1) st (.logical l op r) = st := rfl

/-- C2 counterexample.  For the concrete statement
`for (var i = 0; i < 5; i = i + 1) i;` the parser's desugaring
(`Parser._for_statement`) uses the parsed condition `i < 5` itself as the
while-condition, not the logical expression `(i < 5) or true` that the
claim prescribes, so the two ASTs differ. -/
theorem c2_counterexample :
    forDesugar
        (some (.varS "i" none (some (.lit (.num 0))) false))
        (some (.binary (.varE "i") .less (.lit (.num 5))))
        (some (.assign "i" (.binary (.varE "i") .plus (.lit (.num 1)))))
        (.expression (.varE "i"))
      ≠ specForDesugar
        (.varS "i" none (some (.lit (.num 0))) false)
        (.binary (.varE "i") .less (.lit (.num 5)))
        (.assign "i" (.binary (.varE "i") .plus (.lit (.num 1))))
        (.expression (.varE "i")) := by
  simp [forDesugar, specForDesugar]

/-- C2 (amended).  `for (init; cond; incr) body` desugars at parse time
into `{ init; while (cond) { body; incr; } }` — the parsed condition is
used unchanged — and only when the condition clause is omitted does the
literal `true` take its place. -/
theorem c2_for_desugar :
    (∀ (i : Stmt) (c n : Expr) (b : Stmt),
      forDesugar (some i) (some c) (some n) b
        = .block [i, .whileS c (.block [b, .expression n])]) ∧
    (∀ (i : Stmt) (n : Expr) (b : Stmt),
      forDesugar (some i) none (some n) b
        = .block [i, .whileS (.lit (.boolean true)) (.block [b, .expression n])]) :=
  ⟨fun _ _ _ _ => rfl, fun _ _ _ => rfl⟩

/-- C1 (code bug).  Type analysis of
`var l: list[any] = [1]; var n: list[number] = l;` accepts the program:
`_is_assignable(list[number], list[any])` recurses to
`_is_assignable(number, any)`, which passes because the value side is
`Any`, so the second declaration raises no diagnostic and the sticky
error flag stays clear — although spec §8 and test_compiler.py (line 82,
"Assigning list[any] to list[number]") both require it to fail. -/
theorem c1_list_any_accepted :
    isAssignable (.listT NUMBER) (.listT ANY) = true ∧
    (analyze 100 AState.init c1Prog).hadError = false ∧
    alGet (analyze 100 AState.init c1Prog).globals "n" = some (.listT NUMBER) :=
  ⟨rfl, rfl, rfl⟩

/-- C4 (code bug).  Executing a subscript read never reaches the
`OP_GET_SUBSCRIPT` handler: `bytecode.py`'s `OpCode` enum has no
`OP_CLASS` member, and the dispatch chain in `VM._run` evaluates
`OpCode.OP_CLASS` (vm.py line 398) before the subscript handlers, so
running `return [1][10];` — and equally the missing-dict-key read
`return {"a": 1}["b"];` that the claim says must push nil — raises
`AttributeError` (here at `OP_BUILD_LIST`/`OP_BUILD_DICT`, bytes 27/30,
which are likewise only handled below line 398) instead of the claimed
RuntimeError/nil behaviour. -/
theorem c4_subscript_dispatch_crash :
    (compileScript 100 c4ListProg).2 = false ∧
    interpret defaultNatImpl 1000 (compileScript 100 c4ListProg).1
      = .attrError "OP_CLASS" ∧
    (compileScript 100 c4DictProg).2 = false ∧
    interpret defaultNatImpl 1000 (compileScript 100 c4DictProg).1
      = .attrError "OP_CLASS" :=
  ⟨rfl, rfl, rfl, rfl⟩

set_option maxRecDepth 10000 in
/-- C5.  The naive recursive Fibonacci program (a top-level function
`fib` that recurses through its global name) passes analysis, compiles
without error, and interpreting it returns status OK with value `21` for
`fib(8)`. -/
theorem c5_fib_eval :
    (analyze 100 AState.init fibProg).hadError = false ∧
    (compileScript 100 fibProg).2 = false ∧
    interpret defaultNatImpl 100000 (compileScript 100 fibProg).1
      = .ok (.num 21) :=
  ⟨rfl, rfl, rfl⟩

set_option maxRecDepth 4000 in
/-- C6 counterexample.  Compiling the statement `x;` (a global read) in a
function whose constant pool is already full requires constant-pool index
256, yet the failure flag stays clear: `visit_variable_expr` calls
`_make_constant` directly, bypassing `_emit_constant`'s bound check, so
the 257-entry pool and the over-255 operand are produced with `had_error`
false (the `bytearray.append(256)` inside `_emit_bytes` then raises
`ValueError` in Python, aborting the whole compilation rather than
flagging and discarding that function's chunk). -/
theorem c6_counterexample :
    compileStmt 10 c6St (.expression (.varE "x"))
      = { c6St with
            chunk := { code := [OP_GET_GLOBAL, 256, OP_POP],
                       constants := c6St.chunk.constants ++ [.str "x"],
                       lines := [0, 0, 0] } } ∧
    (compileStmt 10 c6St (.expression (.varE "x"))).hadError = false ∧
    (compileStmt 10 c6St (.expression (.varE "x"))).chunk.constants.length = 257 :=
  ⟨rfl, rfl, rfl⟩

/-- C10 counterexample.  `OP_NOT` on the truthy value `0` pushes `True`,
not the `False` the claim states: vm.py line 303 pushes
`not self._is_falsey(value)` — the value's truthiness — instead of its
negation. -/
theorem c10_counterexample :
    step defaultNatImpl ⟨[⟨[OP_NOT], [], 0, 0⟩], [.num 0], []⟩
      = .next ⟨[⟨[OP_NOT], [], 1, 0⟩], [.boolV true], []⟩ ∧
    Value.boolV true ≠ Value.boolV false :=
  ⟨rfl, by simp⟩

/-- C10 (amended).  The truthiness predicate treats exactly nil and
boolean false as falsey; for every other value — the number 0, the empty
string and the empty list included — `OP_NOT` pushes **true** (the
opcode pushes `not is_falsey(v)`, the value's truthiness, rather than its
negation), and `OP_JUMP_IF_FALSE` with such a value on top advances past
its operands without taking the jump. -/
theorem c10_truthiness_amended :
    (∀ v : Value, isFalsey v = true ↔ (v = .nil ∨ v = .boolV false)) ∧
    (∀ (natImpl : Nat → List Value → Value) (cd : List Nat) (cs : List Value)
        (ip sl : Nat) (fs : List Frame) (pre : List Value) (v : Value)
        (g : List (String × Value)),
      cd.get? ip = some OP_NOT → isFalsey v = false →
      step natImpl ⟨⟨cd, cs, ip, sl⟩ :: fs, pre ++ [v], g⟩
        = .next ⟨⟨cd, cs, ip + 1, sl⟩ :: fs, pre ++ [.boolV true], g⟩) ∧
    (∀ (natImpl : Nat → List Value → Value) (cd : List Nat) (cs : List Value)
        (ip sl : Nat) (fs : List Frame) (stack : List Value) (v : Value)
        (g : List (String × Value)) (hi lo : Nat),
      cd.get? ip = some OP_JUMP_IF_FALSE → cd.get? (ip + 1) = some hi →
      cd.get? (ip + 2) = some lo → pyPeek stack 0 = some v → isFalsey v = false →
      step natImpl ⟨⟨cd, cs, ip, sl⟩ :: fs, stack, g⟩
        = .next ⟨⟨cd, cs, ip + 3, sl⟩ :: fs, stack, g⟩) := by
  refine ⟨?_, ?_, ?_⟩
  · intro v
    cases v <;> simp [isFalsey]
  · intro natImpl cd cs ip sl fs pre v g h1 h2
    simp only [List.get?_eq_getElem?] at h1
    simp [step, h1, OP_NOT, OP_RETURN, OP_CALL, OP_CONSTANT, OP_NEGATE, OP_ADD,
          OP_SUBTRACT, OP_MULTIPLY, OP_DIVIDE, OP_EQUAL, OP_GREATER, OP_LESS,
          pyPop_concat, h2]
  · intro natImpl cd cs ip sl fs stack v g hi lo h1 h2 h3 h4 h5
    simp only [List.get?_eq_getElem?] at h1 h2 h3
    simp [step, h1, h2, h3, h4, h5, OP_JUMP_IF_FALSE, OP_RETURN, OP_CALL,
          OP_CONSTANT, OP_NEGATE, OP_ADD, OP_SUBTRACT, OP_MULTIPLY, OP_DIVIDE,
          OP_EQUAL, OP_GREATER, OP_LESS, OP_NOT, OP_TRUE, OP_FALSE, OP_NIL,
          OP_POP, OP_DEFINE_GLOBAL, OP_GET_GLOBAL, OP_SET_GLOBAL, OP_GET_LOCAL,
          OP_SET_LOCAL, OP_JUMP]

/-- C10 witness: the amended theorem applied at `OP_NOT` on the number 0
and at `OP_JUMP_IF_FALSE` with the empty string on top. -/
theorem c10_truthiness_amended_witness :
    step defaultNatImpl ⟨[⟨[OP_NOT], [], 0, 0⟩], [.num 0], []⟩
      = .next ⟨[⟨[OP_NOT], [], 1, 0⟩], [.boolV true], []⟩ ∧
    step defaultNatImpl ⟨[⟨[OP_JUMP_IF_FALSE, 0, 7], [], 0, 0⟩], [.str ""], []⟩
      = .next ⟨[⟨[OP_JUMP_IF_FALSE, 0, 7], [], 3, 0⟩], [.str ""], []⟩ :=
  ⟨c10_truthiness_amended.2.1 defaultNatImpl [OP_NOT] [] 0 0 [] [] (.num 0) []
      rfl rfl,
   c10_truthiness_amended.2.2 defaultNatImpl [OP_JUMP_IF_FALSE, 0, 7] [] 0 0 []
      [.str ""] (.str "") [] 0 7 rfl rfl rfl rfl rfl⟩

/-- C6 (amended).  Only `_emit_constant` — the path used for literals and
for function objects emitted by `visit_function_stmt` — checks the
constant-pool bound: adding a constant past index 255 there sets the
compiler's failure flag and emits no bytecode.  The paths that call
`_make_constant` directly (name strings for globals here, and likewise
for properties, methods, classes and modules) append the constant and
emit whatever index results, leaving the flag untouched; past 255 the
Python byte append then raises, aborting the entire compilation rather
than discarding only that function's chunk. -/
theorem c6_constant_overflow_amended :
    (∀ (fuel : Nat) (st : CState) (v : Lit), 255 < st.chunk.constants.length →
      compileExpr (fuel + 1) st (.lit v)
        = { st with
              hadError := true
              chunk := { st.chunk with
                constants := st.chunk.constants ++ [litToValue v] } }) ∧
    (∀ (fuel : Nat) (st : CState) (name : String), st.resolveLocal name = none →
      compileExpr (fuel + 1) st (.varE name)
        = { st with chunk :=
              { code := st.chunk.code ++ [OP_GET_GLOBAL, st.chunk.constants.length],
                constants := st.chunk.constants ++ [.str name],
                lines := st.chunk.lines ++ [0, 0] } }) := by
  constructor
  · intro fuel st v h
    simp [compileExpr, CState.emitConstant, CState.makeConstant, Chunk.addConstant, h]
  · intro fuel st name h
    simp [compileExpr, CState.emitConstant, CState.makeConstant, Chunk.addConstant,
          CState.emitBytes, CState.emitByte, Chunk.write, h, List.append_assoc]

set_option maxRecDepth 4000 in
/-- C6 witness: the amended theorem applied to the full-pool state
`c6St` — a literal there sets the flag, while a global name read appends
index 256 with the flag left false. -/
theorem c6_constant_overflow_amended_witness :
    (255 < c6St.chunk.constants.length ∧
      compileExpr 1 c6St (.lit (.num 5))
        = { c6St with
              hadError := true
              chunk := { c6St.chunk with
                constants := c6St.chunk.constants ++ [.num 5] } }) ∧
    (c6St.resolveLocal "x" = none ∧
      compileExpr 1 c6St (.varE "x")
        = { c6St with chunk :=
              { code := c6St.chunk.code ++ [OP_GET_GLOBAL, c6St.chunk.constants.length],
                constants := c6St.chunk.constants ++ [.str "x"],
                lines := c6St.chunk.lines ++ [0, 0] } }) :=
  ⟨⟨by decide, c6_constant_overflow_amended.1 0 c6St (.num 5) (by decide)⟩,
   ⟨rfl, c6_constant_overflow_amended.2 0 c6St "x" rfl⟩⟩

/-- C3.  Every callable kind dispatched by `VM._call_value` rejects a
wrong argument count with a RuntimeError message stating the expected and
the actual counts — fixed-arity natives, compiled functions, classes with
an `init` method, component definitions (whose expected count is "0 or
1"), and bound methods — and `OP_CALL` on a callee whose dispatch fails
makes the VM halt, surfacing `RUNTIME_ERROR` with that message. -/
theorem c3_wrong_arity_runtime_error :
    (∀ (natImpl : Nat → List Value → Value) (a fid argc : Nat)
        (stack : List Value) (fs : List Frame), argc ≠ a →
      callValue natImpl (.native (some a) fid) argc stack fs
        = .fail s!"RuntimeError: Expected {a} arguments but got {argc}.") ∧
    (∀ (natImpl : Nat → List Value → Value) (ar : Nat) (cd : List Nat)
        (cs : List Value) (nm : String) (argc : Nat) (stack : List Value)
        (fs : List Frame), argc ≠ ar →
      callValue natImpl (.fn ar cd cs nm) argc stack fs
        = .fail s!"RuntimeError: Expected {ar} arguments but got {argc}.") ∧
    (∀ (natImpl : Nat → List Value → Value) (cn : String)
        (ms : List (String × Value)) (ia : Nat) (icd : List Nat)
        (ics : List Value) (inm : String) (argc : Nat) (pre args : List Value)
        (fs : List Frame),
      alGet ms "init" = some (.fn ia icd ics inm) → args.length = argc →
      argc ≠ ia →
      callValue natImpl (.cls cn ms) argc (pre ++ .cls cn ms :: args) fs
        = .fail s!"RuntimeError: Expected {ia} arguments for init but got {argc}.") ∧
    (∀ (natImpl : Nat → List Value → Value) (nm : String)
        (props : List (String × List Value)) (ms : List (String × Value))
        (argc : Nat) (stack : List Value) (fs : List Frame), 1 < argc →
      callValue natImpl (.compDef nm props ms) argc stack fs
        = .fail s!"RuntimeError: Component \x27{nm}\x27 constructor takes 0 or 1 arguments, but got {argc}.") ∧
    (∀ (natImpl : Nat → List Value → Value) (recv : Value) (ma : Nat)
        (mcd : List Nat) (mcs : List Value) (mnm : String) (argc : Nat)
        (stack : List Value) (fs : List Frame), argc ≠ ma →
      callValue natImpl (.bound recv (.fn ma mcd mcs mnm)) argc stack fs
        = .fail s!"RuntimeError: Method \x27{mnm}\x27 expected {ma} arguments but got {argc}.") ∧
    (∀ (natImpl : Nat → List Value → Value) (cd : List Nat) (cs : List Value)
        (ip sl : Nat) (fs : List Frame) (stack : List Value)
        (g : List (String × Value)) (argc : Nat) (callee : Value)
        (msg : String) (fuel : Nat),
      cd.get? ip = some OP_CALL → cd.get? (ip + 1) = some argc →
      pyPeek stack argc = some callee →
      callValue natImpl callee argc stack (⟨cd, cs, ip + 2, sl⟩ :: fs) = .fail msg →
      run natImpl (fuel + 1) ⟨⟨cd, cs, ip, sl⟩ :: fs, stack, g⟩
        = .runtimeError msg) := by
  refine ⟨?_, ?_, ?_, ?_, ?_, ?_⟩
  · intro natImpl a fid argc stack fs h
    simp [callValue, h]
  · intro natImpl ar cd cs nm argc stack fs h
    simp [callValue, h]
  · intro natImpl cn ms ia icd ics inm argc pre args fs hinit hlen h
    have hlt : argc < pre.length + (args.length + 1) := by omega
    simp [callValue, pySetFromEnd, hlt, hinit, h]
  · intro natImpl nm props ms argc stack fs h
    simp [callValue, Nat.not_le.mpr h, h]
  · intro natImpl recv ma mcd mcs mnm argc stack fs h
    simp [callValue, h]
  · intro natImpl cd cs ip sl fs stack g argc callee msg fuel h1 h2 h3 h4
    simp only [List.get?_eq_getElem?] at h1 h2
    simp [run, step, h1, h2, h3, h4, OP_CALL, OP_RETURN]

/-- C3 witness: the theorem applied at concrete wrong-arity calls of each
callable kind, and a concrete `OP_CALL` halting with `RUNTIME_ERROR`. -/
theorem c3_wrong_arity_runtime_error_witness :
    callValue defaultNatImpl (.native (some 1) 0) 2 [] []
      = .fail "RuntimeError: Expected 1 arguments but got 2." ∧
    callValue defaultNatImpl (.fn 2 [] [] "f") 1 [] []
      = .fail "RuntimeError: Expected 2 arguments but got 1." ∧
    callValue defaultNatImpl (.cls "C" [("init", .fn 1 [] [] "init")]) 0
        ([] ++ .cls "C" [("init", .fn 1 [] [] "init")] :: [])  []
      = .fail "RuntimeError: Expected 1 arguments for init but got 0." ∧
    callValue defaultNatImpl (.compDef "Button" [] []) 2
        [.compDef "Button" [] [], .num 1, .num 2] []
      = .fail "RuntimeError: Component \x27Button\x27 constructor takes 0 or 1 arguments, but got 2." ∧
    callValue defaultNatImpl (.bound (.inst []) (.fn 1 [] [] "m")) 3 [] []
      = .fail "RuntimeError: Method \x27m\x27 expected 1 arguments but got 3." ∧
    run defaultNatImpl 5
        ⟨[⟨[OP_CALL, 2], [], 0, 0⟩], [.native (some 1) 0, .num 1, .num 2], []⟩
      = .runtimeError "RuntimeError: Expected 1 arguments but got 2." :=
  ⟨c3_wrong_arity_runtime_error.1 defaultNatImpl 1 0 2 [] [] (by decide),
   c3_wrong_arity_runtime_error.2.1 defaultNatImpl 2 [] [] "f" 1 [] [] (by decide),
   c3_wrong_arity_runtime_error.2.2.1 defaultNatImpl "C"
     [("init", .fn 1 [] [] "init")] 1 [] [] "init" 0 [] [] [] rfl rfl (by decide),
   c3_wrong_arity_runtime_error.2.2.2.1 defaultNatImpl "Button" [] [] 2
     [.compDef "Button" [] [], .num 1, .num 2] [] (by decide),
   c3_wrong_arity_runtime_error.2.2.2.2.1 defaultNatImpl (.inst []) 1 [] [] "m" 3
     [] [] (by decide),
   c3_wrong_arity_runtime_error.2.2.2.2.2 defaultNatImpl [OP_CALL, 2] [] 0 0 []
     [.native (some 1) 0, .num 1, .num 2] [] 2 (.native (some 1) 0)
     "RuntimeError: Expected 1 arguments but got 2." 4 rfl rfl rfl rfl⟩

/-- C8.  Constructing a component with a Dict argument whose `state` field
is itself a Dict yields an instance whose `state` field has been replaced
by the mutation-observing `StateProxy` wrapping that dict's pairs (and the
instance starts dirty); and every property write through the proxy
(`StateProxy.set`) both stores the value in the state map — the written
key reads back as the written value — and sets the owning instance's
dirty flag, once per write. -/
theorem c8_state_proxy :
    (∀ (natImpl : Nat → List Value → Value) (dn : String)
        (props : List (String × List Value)) (ms : List (String × Value))
        (sd : List (Value × Value)) (pre : List Value) (fs : List Frame),
      ∃ fields : List (Value × Value),
        callValue natImpl (.compDef dn props ms) 1
            (pre ++ [.compDef dn props ms, .dict [(.str "state", .dict sd)]]) fs
          = .proceed (pre ++ [.compInst dn ms fields true]) fs
        ∧ pyDictGet fields (.str "state") = some (.proxy sd)) ∧
    (∀ (pairs : List (Value × Value)) (ownerDirty : Bool) (name : String)
        (value : Value),
      (stateProxySet pairs ownerDirty name value).2 = true ∧
      pyDictGet (stateProxySet pairs ownerDirty name value).1 (.str name)
        = some value) := by
  constructor
  · intro natImpl dn props ms sd pre fs
    refine ⟨pyDictSet (pyDictSet (componentDefaults props) (.str "state") (.dict sd))
        (.str "state") (.proxy sd), ?_, ?_⟩
    · simp [callValue, pyPeek_zero_pair, pyPop_concat, List.foldl,
            pyDictGet_set_self]
    · exact pyDictGet_set_self _ "state" _
  · intro pairs ownerDirty name value
    exact ⟨rfl, pyDictGet_set_self _ name _⟩

end Orion
